import Mathlib

/-!
Verification development for the sfeMovie `VideoStream` component
(src/src/VideoStream.cpp): a shallow embedding of its decode loop,
timestamp derivation, synchronization gating and lifecycle hooks.

Modelling conventions:
* An `AVPacket` is modelled by `Packet`: `pid` is the identity of the
  heap object, `data` the value of the `data` pointer (a cursor), and
  `size` the remaining length.
* The external codec primitive `avcodec_decode_video2` is modelled by an
  oracle `Nat → DecodeOutcome`, one outcome per call, indexed by a call
  counter: every possible sequence of consumed-byte counts and
  picture flags is a valid oracle.
* `sf::Time` quantities (timestamps, timer offset) are modelled as exact
  rationals in milliseconds; `av_q2d` of the stream time base is the
  rational `timeBase` (floating-point rounding is abstracted away).
* The packet source (`popEncodedData` / `prependEncodedData`) is modelled
  by a `List Packet` used as a queue, popped from the head, prepended to
  the head; every pop, free and requeue is recorded in an event trace.
-/

/-- A compressed packet: object identity, data-pointer cursor, remaining size
(`AVPacket::data` / `AVPacket::size`). -/
structure Packet where
  pid : Nat
  data : Nat
  size : Nat
deriving Repr, DecidableEq

/-- One outcome of the external decode primitive `avcodec_decode_video2`:
the return value (`decodedLength`, number of bytes consumed, negative or
zero on failure), the `gotPicture` output flag, and the best-effort
timestamp of the output frame (in stream time-base units). -/
structure DecodeOutcome where
  decodedLength : Int
  gotPicture : Bool
  bestEffortTimestamp : Int
deriving Repr, DecidableEq

/-- Immutable per-stream data read by `decodePacket`:
`m_stream->start_time` (with `startTimeKnown = (start_time != AV_NOPTS_VALUE)`)
and `av_q2d(m_stream->time_base)` as an exact rational. -/
structure StreamInfo where
  startTimeKnown : Bool
  startTime : Int
  timeBase : ℚ
deriving DecidableEq

/-- The mutable clock state of the stream: `m_lastDecodedTimestamp`,
in milliseconds. -/
structure StreamState where
  lastDecodedTimestamp : ℚ
deriving DecidableEq

/-- Result of one `VideoStream::decodePacket` call: the boolean return
value (`goOn`), the two output flags, the (possibly cursor-advanced)
packet, and the updated stream state. -/
structure DecodeResult where
  goOn : Bool
  gotFrame : Bool
  needsMoreDecoding : Bool
  packet : Packet
  state : StreamState
deriving DecidableEq

/-- Shallow embedding of `VideoStream::decodePacket` (VideoStream.cpp,
lines 139-165).  `gotFrame` is set from the primitive's `gotPicture` flag
unconditionally; on `decodedLength > 0` the packet cursor is advanced when
consumption was only partial and the timestamp is derived when a picture
was produced; on `decodedLength <= 0` the function returns `false` leaving
everything unchanged. -/
def decodePacket (info : StreamInfo) (st : StreamState) (packet : Packet)
    (o : DecodeOutcome) : DecodeResult :=
  let gotFrame := o.gotPicture
  if 0 < o.decodedLength then
    let isPartialConsume := o.decodedLength < (packet.size : Int)
    let packet1 :=
      if isPartialConsume then
        { packet with data := packet.data + o.decodedLength.toNat,
                      size := packet.size - o.decodedLength.toNat }
      else packet
    let st1 :=
      if gotFrame then
        let startTime : Int := if info.startTimeKnown then info.startTime else 0
        { lastDecodedTimestamp :=
            1000 * ((o.bestEffortTimestamp - startTime : Int) : ℚ) * info.timeBase }
      else st
    { goOn := true, gotFrame := gotFrame,
      needsMoreDecoding := isPartialConsume, packet := packet1, state := st1 }
  else
    { goOn := false, gotFrame := gotFrame, needsMoreDecoding := false,
      packet := packet, state := st }

/-- An observable interaction of `onGetData` with the packet source:
`popEncodedData` returning a packet, `av_free_packet`+`av_free`, or
`prependEncodedData`. -/
inductive PacketEvent where
  | pop (p : Packet)
  | free (p : Packet)
  | requeue (p : Packet)
deriving Repr, DecidableEq

/-- Result of one `VideoStream::onGetData` call: the boolean return value
(`goOn`), whether the texture received new pixel data (`presented`), the
final stream state, the final packet-source queue, the trace of packet
events, and the decode-call counter after the call. -/
structure GetDataResult where
  goOn : Bool
  presented : Bool
  state : StreamState
  queue : List Packet
  events : List PacketEvent
  nextCall : Nat
deriving DecidableEq

/-- Termination measure for the decode loop: queue length plus total
remaining bytes. -/
def queueMeasure (l : List Packet) : Nat :=
  l.length + (l.map Packet.size).sum

theorem decodePacket_partial_size (info : StreamInfo) (st : StreamState)
    (p : Packet) (o : DecodeOutcome)
    (h : (decodePacket info st p o).needsMoreDecoding = true) :
    (decodePacket info st p o).packet.size < p.size := by
  simp only [decodePacket] at h ⊢
  by_cases hpos : 0 < o.decodedLength
  · by_cases hlt : o.decodedLength < (p.size : Int)
    · simp only [if_pos hpos, if_pos hlt]
      omega
    · simp only [if_pos hpos, decide_eq_true_eq] at h
      exact absurd h hlt
  · simp [if_neg hpos] at h

/-- The body of the `while` loop of `VideoStream::onGetData`
(VideoStream.cpp, lines 107-129), entered with the current packet `p`
already popped (event recorded here) and the rest of the packet source in
`rest`.  Each iteration calls `decodePacket`, presents the frame when one
was produced, requeues the packet on `needsMoreDecoding` and frees it
otherwise, and continues by popping the next packet exactly when no frame
was produced and the decode call succeeded. -/
def runLoop (info : StreamInfo) (oracle : Nat → DecodeOutcome) (k : Nat)
    (st : StreamState) (p : Packet) (rest : List Packet) : GetDataResult :=
  let r := decodePacket info st p (oracle k)
  if hm : r.needsMoreDecoding then
    if r.gotFrame = true ∨ r.goOn = false then
      { goOn := r.goOn, presented := r.gotFrame, state := r.state,
        queue := r.packet :: rest,
        events := [PacketEvent.pop p, PacketEvent.requeue r.packet],
        nextCall := k + 1 }
    else
      let tail := runLoop info oracle (k + 1) r.state r.packet rest
      { tail with events :=
          PacketEvent.pop p :: PacketEvent.requeue r.packet :: tail.events }
  else
    if r.gotFrame = true ∨ r.goOn = false then
      { goOn := r.goOn, presented := r.gotFrame, state := r.state,
        queue := rest,
        events := [PacketEvent.pop p, PacketEvent.free r.packet],
        nextCall := k + 1 }
    else
      match rest with
      | [] =>
          { goOn := r.goOn, presented := false, state := r.state,
            queue := [],
            events := [PacketEvent.pop p, PacketEvent.free r.packet],
            nextCall := k + 1 }
      | q :: qs =>
          let tail := runLoop info oracle (k + 1) r.state q qs
          { tail with events :=
              PacketEvent.pop p :: PacketEvent.free r.packet :: tail.events }
termination_by p.size + queueMeasure rest
decreasing_by
  · have := decodePacket_partial_size info st p (oracle k) hm
    omega
  · simp only [queueMeasure, List.length_cons, List.map_cons, List.sum_cons]
    omega

/-- Shallow embedding of `VideoStream::onGetData` (VideoStream.cpp,
lines 101-132): pop the first packet, then run the decode loop; when the
source is empty the loop never executes and the call returns `true`. -/
def onGetData (info : StreamInfo) (oracle : Nat → DecodeOutcome) (k : Nat)
    (st : StreamState) (queue : List Packet) : GetDataResult :=
  match queue with
  | [] => { goOn := true, presented := false, state := st, queue := [],
            events := [], nextCall := k }
  | p :: rest => runLoop info oracle k st p rest

/-- Shallow embedding of `VideoStream::getSynchronizationGap`
(VideoStream.cpp, lines 134-137): `m_lastDecodedTimestamp - m_timer.getOffset()`,
with the timer offset passed in (the timer is an external collaborator). -/
def getSynchronizationGap (st : StreamState) (timerOffset : ℚ) : ℚ :=
  st.lastDecodedTimestamp - timerOffset

/-- The result of a call that never touches the decode machinery: nothing
changes and no packet event occurs. -/
def noActionResult (st : StreamState) (queue : List Packet) (k : Nat) :
    GetDataResult :=
  { goOn := true, presented := false, state := st, queue := queue,
    events := [], nextCall := k }

/-- Shallow embedding of `VideoStream::updateTexture` (VideoStream.cpp,
lines 93-99): call `onGetData` exactly when the synchronization gap is
strictly negative, otherwise do nothing. -/
def updateTexture (info : StreamInfo) (oracle : Nat → DecodeOutcome)
    (k : Nat) (timerOffset : ℚ) (st : StreamState) (queue : List Packet) :
    GetDataResult :=
  if getSynchronizationGap st timerOffset < 0 then
    onGetData info oracle k st queue
  else
    noActionResult st queue k

/-- Shallow embedding of `VideoStream::preload` (VideoStream.cpp,
lines 182-185): unconditionally call `onGetData`. -/
def preload (info : StreamInfo) (oracle : Nat → DecodeOutcome) (k : Nat)
    (st : StreamState) (queue : List Packet) : GetDataResult :=
  onGetData info oracle k st queue

/-- Shallow embedding of `VideoStream::willPlay` (VideoStream.cpp,
lines 187-190): call `preload`. -/
def willPlay (info : StreamInfo) (oracle : Nat → DecodeOutcome) (k : Nat)
    (st : StreamState) (queue : List Packet) : GetDataResult :=
  preload info oracle k st queue

/-- The internal buffered state of the external codec context: abstract
data submitted to the codec before the current instant that could still
influence future decoded pictures. -/
structure CodecState where
  buffered : List Int
deriving DecidableEq

/-- Model of the external `avcodec_flush_buffers`: discards all internal
buffered decoder state. -/
def avcodecFlushBuffers (_ : CodecState) : CodecState :=
  { buffered := [] }

/-- Shallow embedding of `VideoStream::didStop` (VideoStream.cpp,
lines 202-205): invoke the codec flush operation on the codec context. -/
def didStop (c : CodecState) : CodecState :=
  avcodecFlushBuffers c

/-- The status values of the shared playback clock (`Timer::Status`). -/
inductive TimerStatus where
  | Stopped
  | Playing
  | Paused
deriving Repr, DecidableEq

/-- Combined observable result of a lifecycle transition: codec state,
stream state, packet queue, packet events, decode-call counter and whether
a frame was presented. -/
structure LifecycleResult where
  codec : CodecState
  state : StreamState
  queue : List Packet
  events : List PacketEvent
  nextCall : Nat
  presented : Bool
deriving DecidableEq

/-- Modelled from the spec: the shared `Timer` (not part of src/, only its
observers are) dispatches the lifecycle hooks on its status transitions.
Per the spec's lifecycle table (section 4.5): on the transition into
Playing from Stopped the will-play hook runs (which, per src, preloads);
on the transition into Playing from Paused and on transitions into Paused
no action is taken; on every transition into Stopped the did-stop hook
runs (which, per src, flushes the codec). -/
def lifecycleTransition (info : StreamInfo) (oracle : Nat → DecodeOutcome)
    (prev next : TimerStatus) (c : CodecState) (k : Nat)
    (st : StreamState) (queue : List Packet) : LifecycleResult :=
  match prev, next with
  | TimerStatus.Stopped, TimerStatus.Playing =>
      let r := willPlay info oracle k st queue
      { codec := c, state := r.state, queue := r.queue, events := r.events,
        nextCall := r.nextCall, presented := r.presented }
  | TimerStatus.Paused, TimerStatus.Playing =>
      { codec := c, state := st, queue := queue, events := [],
        nextCall := k, presented := false }
  | _, TimerStatus.Stopped =>
      { codec := didStop c, state := st, queue := queue, events := [],
        nextCall := k, presented := false }
  | _, _ =>
      { codec := c, state := st, queue := queue, events := [],
        nextCall := k, presented := false }

/-- The packet-disposal discipline of the decode loop: the event trace is a
sequence of pop/disposal pairs, i.e. every popped packet is followed by
exactly one terminal disposal (free or requeue) of the same packet object
before anything else happens. -/
def WellDisposed : List PacketEvent → Prop
  | [] => True
  | PacketEvent.pop p :: PacketEvent.free q :: rest =>
      q.pid = p.pid ∧ WellDisposed rest
  | PacketEvent.pop p :: PacketEvent.requeue q :: rest =>
      q.pid = p.pid ∧ WellDisposed rest
  | _ => False


theorem runLoop_step_requeue_exit (info : StreamInfo) (oracle : Nat → DecodeOutcome)
    (k : Nat) (st : StreamState) (p : Packet) (rest : List Packet)
    (hm : (decodePacket info st p (oracle k)).needsMoreDecoding = true)
    (hx : (decodePacket info st p (oracle k)).gotFrame = true ∨
          (decodePacket info st p (oracle k)).goOn = false) :
    runLoop info oracle k st p rest =
      { goOn := (decodePacket info st p (oracle k)).goOn,
        presented := (decodePacket info st p (oracle k)).gotFrame,
        state := (decodePacket info st p (oracle k)).state,
        queue := (decodePacket info st p (oracle k)).packet :: rest,
        events := [PacketEvent.pop p,
                   PacketEvent.requeue (decodePacket info st p (oracle k)).packet],
        nextCall := k + 1 } := by
  rw [runLoop.eq_def]
  simp only [hm, hx, dite_true, if_true]

theorem runLoop_step_requeue_next (info : StreamInfo) (oracle : Nat → DecodeOutcome)
    (k : Nat) (st : StreamState) (p : Packet) (rest : List Packet)
    (hm : (decodePacket info st p (oracle k)).needsMoreDecoding = true)
    (hx : ¬((decodePacket info st p (oracle k)).gotFrame = true ∨
            (decodePacket info st p (oracle k)).goOn = false)) :
    runLoop info oracle k st p rest =
      (let tail := runLoop info oracle (k + 1) (decodePacket info st p (oracle k)).state
          (decodePacket info st p (oracle k)).packet rest;
       { tail with events := PacketEvent.pop p ::
            PacketEvent.requeue (decodePacket info st p (oracle k)).packet :: tail.events }) := by
  rw [runLoop.eq_def]
  simp only [hm, dite_true, if_neg hx]

theorem decodePacket_gotFrame (info : StreamInfo) (st : StreamState)
    (p : Packet) (o : DecodeOutcome) :
    (decodePacket info st p o).gotFrame = o.gotPicture := by
  simp only [decodePacket]
  split <;> rfl

theorem decodePacket_goOn (info : StreamInfo) (st : StreamState)
    (p : Packet) (o : DecodeOutcome) :
    (decodePacket info st p o).goOn = decide (0 < o.decodedLength) := by
  simp only [decodePacket]
  split <;> simp_all

theorem decodePacket_pid (info : StreamInfo) (st : StreamState)
    (p : Packet) (o : DecodeOutcome) :
    (decodePacket info st p o).packet.pid = p.pid := by
  simp only [decodePacket]
  split
  · split <;> rfl
  · rfl

theorem decodePacket_state_noPicture (info : StreamInfo) (st : StreamState)
    (p : Packet) (o : DecodeOutcome) (h : o.gotPicture = false) :
    (decodePacket info st p o).state = st := by
  simp only [decodePacket, h]
  split <;> simp

theorem decodePacket_failure (info : StreamInfo) (st : StreamState)
    (p : Packet) (o : DecodeOutcome) (h : o.decodedLength ≤ 0) :
    decodePacket info st p o =
      { goOn := false, gotFrame := o.gotPicture, needsMoreDecoding := false,
        packet := p, state := st } := by
  simp [decodePacket, not_lt.mpr h]

theorem decodePacket_partial (info : StreamInfo) (st : StreamState)
    (p : Packet) (o : DecodeOutcome) (hpos : 0 < o.decodedLength)
    (hlt : o.decodedLength < (p.size : Int)) :
    (decodePacket info st p o).needsMoreDecoding = true ∧
    (decodePacket info st p o).packet =
      { pid := p.pid, data := p.data + o.decodedLength.toNat,
        size := p.size - o.decodedLength.toNat } := by
  simp [decodePacket, hpos, hlt]

theorem runLoop_step_free_exit (info : StreamInfo) (oracle : Nat → DecodeOutcome)
    (k : Nat) (st : StreamState) (p : Packet) (rest : List Packet)
    (hm : (decodePacket info st p (oracle k)).needsMoreDecoding = false)
    (hx : (decodePacket info st p (oracle k)).gotFrame = true ∨
          (decodePacket info st p (oracle k)).goOn = false) :
    runLoop info oracle k st p rest =
      { goOn := (decodePacket info st p (oracle k)).goOn,
        presented := (decodePacket info st p (oracle k)).gotFrame,
        state := (decodePacket info st p (oracle k)).state,
        queue := rest,
        events := [PacketEvent.pop p,
                   PacketEvent.free (decodePacket info st p (oracle k)).packet],
        nextCall := k + 1 } := by
  rw [runLoop.eq_def]
  simp only [hm, Bool.false_eq_true, dite_false, hx, if_true]

theorem runLoop_step_stop_empty (info : StreamInfo) (oracle : Nat → DecodeOutcome)
    (k : Nat) (st : StreamState) (p : Packet)
    (hm : (decodePacket info st p (oracle k)).needsMoreDecoding = false)
    (hx : ¬((decodePacket info st p (oracle k)).gotFrame = true ∨
            (decodePacket info st p (oracle k)).goOn = false)) :
    runLoop info oracle k st p [] =
      { goOn := (decodePacket info st p (oracle k)).goOn,
        presented := false,
        state := (decodePacket info st p (oracle k)).state,
        queue := [],
        events := [PacketEvent.pop p,
                   PacketEvent.free (decodePacket info st p (oracle k)).packet],
        nextCall := k + 1 } := by
  rw [runLoop.eq_def]
  simp only [hm, Bool.false_eq_true, dite_false, if_neg hx]

theorem runLoop_step_free_next (info : StreamInfo) (oracle : Nat → DecodeOutcome)
    (k : Nat) (st : StreamState) (p q : Packet) (qs : List Packet)
    (hm : (decodePacket info st p (oracle k)).needsMoreDecoding = false)
    (hx : ¬((decodePacket info st p (oracle k)).gotFrame = true ∨
            (decodePacket info st p (oracle k)).goOn = false)) :
    runLoop info oracle k st p (q :: qs) =
      (let tail := runLoop info oracle (k + 1) (decodePacket info st p (oracle k)).state q qs;
       { tail with events := PacketEvent.pop p ::
            PacketEvent.free (decodePacket info st p (oracle k)).packet :: tail.events }) := by
  rw [runLoop.eq_def]
  simp only [hm, Bool.false_eq_true, dite_false, if_neg hx]
theorem runLoop_wellDisposed (info : StreamInfo) (oracle : Nat → DecodeOutcome)
    (k : Nat) (st : StreamState) (p : Packet) (rest : List Packet) :
    WellDisposed (runLoop info oracle k st p rest).events := by
  induction k, st, p, rest using runLoop.induct info oracle with
  | case1 k st p rest r hm hx =>
    rw [runLoop_step_requeue_exit info oracle k st p rest hm hx]
    exact ⟨decodePacket_pid info st p (oracle k), trivial⟩
  | case2 k st p rest r hm hx ih =>
    rw [runLoop_step_requeue_next info oracle k st p rest hm hx]
    exact ⟨decodePacket_pid info st p (oracle k), ih⟩
  | case3 k st p rest r hm hx =>
    rw [runLoop_step_free_exit info oracle k st p rest (by simpa using hm) hx]
    exact ⟨decodePacket_pid info st p (oracle k), trivial⟩
  | case4 k st p r hm hx =>
    rw [runLoop_step_stop_empty info oracle k st p (by simpa using hm) hx]
    exact ⟨decodePacket_pid info st p (oracle k), trivial⟩
  | case5 k st p r hm hx q qs ih =>
    rw [runLoop_step_free_next info oracle k st p q qs (by simpa using hm) hx]
    exact ⟨decodePacket_pid info st p (oracle k), ih⟩

theorem runLoop_noPresent_state (info : StreamInfo) (oracle : Nat → DecodeOutcome)
    (k : Nat) (st : StreamState) (p : Packet) (rest : List Packet) :
    (runLoop info oracle k st p rest).presented = false →
    (runLoop info oracle k st p rest).state = st := by
  induction k, st, p, rest using runLoop.induct info oracle with
  | case1 k st p rest r hm hx =>
    rw [runLoop_step_requeue_exit info oracle k st p rest hm hx]
    intro h
    exact decodePacket_state_noPicture info st p (oracle k)
      ((decodePacket_gotFrame info st p (oracle k)).symm.trans h)
  | case2 k st p rest r hm hx ih =>
    rw [runLoop_step_requeue_next info oracle k st p rest hm hx]
    intro h
    have hnp : (oracle k).gotPicture = false := by
      have := (not_or.mp hx).1
      have hg := decodePacket_gotFrame info st p (oracle k)
      simp only [Bool.not_eq_true] at this
      rw [← hg]; exact this
    have hst := decodePacket_state_noPicture info st p (oracle k) hnp
    simp only [] at h
    rw [ih h, hst]
  | case3 k st p rest r hm hx =>
    rw [runLoop_step_free_exit info oracle k st p rest (by simpa using hm) hx]
    intro h
    exact decodePacket_state_noPicture info st p (oracle k)
      ((decodePacket_gotFrame info st p (oracle k)).symm.trans h)
  | case4 k st p r hm hx =>
    rw [runLoop_step_stop_empty info oracle k st p (by simpa using hm) hx]
    intro h
    have hnp : (oracle k).gotPicture = false := by
      have := (not_or.mp hx).1
      have hg := decodePacket_gotFrame info st p (oracle k)
      simp only [Bool.not_eq_true] at this
      rw [← hg]; exact this
    exact decodePacket_state_noPicture info st p (oracle k) hnp
  | case5 k st p r hm hx q qs ih =>
    rw [runLoop_step_free_next info oracle k st p q qs (by simpa using hm) hx]
    intro h
    have hnp : (oracle k).gotPicture = false := by
      have := (not_or.mp hx).1
      have hg := decodePacket_gotFrame info st p (oracle k)
      simp only [Bool.not_eq_true] at this
      rw [← hg]; exact this
    have hst := decodePacket_state_noPicture info st p (oracle k) hnp
    simp only [] at h
    rw [ih h, hst]

theorem runLoop_nextCall_lt (info : StreamInfo) (oracle : Nat → DecodeOutcome)
    (k : Nat) (st : StreamState) (p : Packet) (rest : List Packet) :
    k < (runLoop info oracle k st p rest).nextCall := by
  induction k, st, p, rest using runLoop.induct info oracle with
  | case1 k st p rest r hm hx =>
    rw [runLoop_step_requeue_exit info oracle k st p rest hm hx]
    exact Nat.lt_succ_self k
  | case2 k st p rest r hm hx ih =>
    rw [runLoop_step_requeue_next info oracle k st p rest hm hx]
    exact Nat.lt_of_succ_lt ih
  | case3 k st p rest r hm hx =>
    rw [runLoop_step_free_exit info oracle k st p rest (by simpa using hm) hx]
    exact Nat.lt_succ_self k
  | case4 k st p r hm hx =>
    rw [runLoop_step_stop_empty info oracle k st p (by simpa using hm) hx]
    exact Nat.lt_succ_self k
  | case5 k st p r hm hx q qs ih =>
    rw [runLoop_step_free_next info oracle k st p q qs (by simpa using hm) hx]
    exact Nat.lt_of_succ_lt ih

theorem runLoop_goOn_iff (info : StreamInfo) (oracle : Nat → DecodeOutcome)
    (k : Nat) (st : StreamState) (p : Packet) (rest : List Packet) :
    (runLoop info oracle k st p rest).goOn = false ↔
      (oracle ((runLoop info oracle k st p rest).nextCall - 1)).decodedLength ≤ 0 := by
  induction k, st, p, rest using runLoop.induct info oracle with
  | case1 k st p rest r hm hx =>
    rw [runLoop_step_requeue_exit info oracle k st p rest hm hx]
    simp [decodePacket_goOn]
  | case2 k st p rest r hm hx ih =>
    rw [runLoop_step_requeue_next info oracle k st p rest hm hx]
    exact ih
  | case3 k st p rest r hm hx =>
    rw [runLoop_step_free_exit info oracle k st p rest (by simpa using hm) hx]
    simp [decodePacket_goOn]
  | case4 k st p r hm hx =>
    rw [runLoop_step_stop_empty info oracle k st p (by simpa using hm) hx]
    simp [decodePacket_goOn]
  | case5 k st p r hm hx q qs ih =>
    rw [runLoop_step_free_next info oracle k st p q qs (by simpa using hm) hx]
    exact ih

theorem runLoop_events_head (info : StreamInfo) (oracle : Nat → DecodeOutcome)
    (k : Nat) (st : StreamState) (p : Packet) (rest : List Packet) :
    (runLoop info oracle k st p rest).events.head? = some (PacketEvent.pop p) := by
  by_cases hm : (decodePacket info st p (oracle k)).needsMoreDecoding = true
  · by_cases hx : (decodePacket info st p (oracle k)).gotFrame = true ∨
        (decodePacket info st p (oracle k)).goOn = false
    · rw [runLoop_step_requeue_exit info oracle k st p rest hm hx]; rfl
    · rw [runLoop_step_requeue_next info oracle k st p rest hm hx]; rfl
  · by_cases hx : (decodePacket info st p (oracle k)).gotFrame = true ∨
        (decodePacket info st p (oracle k)).goOn = false
    · rw [runLoop_step_free_exit info oracle k st p rest (by simpa using hm) hx]; rfl
    · cases rest with
      | nil => rw [runLoop_step_stop_empty info oracle k st p (by simpa using hm) hx]; rfl
      | cons q qs =>
        rw [runLoop_step_free_next info oracle k st p q qs (by simpa using hm) hx]; rfl

/-- Claim C1: every packet popped from the packet source during a single
call to `onGetData` (whether triggered by `updateTexture` or `preload`) is,
by the time that call returns, either freed exactly once or requeued
(prepended) exactly once — never both and never neither — for every
possible decode-primitive outcome. -/
theorem claim_C1_packet_disposal (info : StreamInfo)
    (oracle : Nat → DecodeOutcome) (k : Nat) (st : StreamState)
    (queue : List Packet) :
    WellDisposed (onGetData info oracle k st queue).events := by
  cases queue with
  | nil => exact trivial
  | cons p rest => exact runLoop_wellDisposed info oracle k st p rest

/-- Claim C2: when the decode primitive succeeds with consumed bytes
strictly less than the packet's remaining length, `decodePacket` sets
`needsMoreDecoding`, advances the data pointer and shrinks the size by the
consumed length, and `onGetData` prepends that same packet object to the
packet source front (next to be popped) instead of freeing it. -/
theorem claim_C2_partial_consume_requeue (info : StreamInfo)
    (oracle : Nat → DecodeOutcome) (k : Nat) (st : StreamState)
    (p : Packet) (rest : List Packet)
    (hpos : 0 < (oracle k).decodedLength)
    (hlt : (oracle k).decodedLength < (p.size : Int)) :
    (decodePacket info st p (oracle k)).needsMoreDecoding = true ∧
    (decodePacket info st p (oracle k)).packet =
      { pid := p.pid, data := p.data + (oracle k).decodedLength.toNat,
        size := p.size - (oracle k).decodedLength.toNat } ∧
    (onGetData info oracle k st (p :: rest)).events.take 2 =
      [PacketEvent.pop p,
       PacketEvent.requeue
         { pid := p.pid, data := p.data + (oracle k).decodedLength.toNat,
           size := p.size - (oracle k).decodedLength.toNat }] ∧
    ((oracle k).gotPicture = true →
      (onGetData info oracle k st (p :: rest)).queue =
        { pid := p.pid, data := p.data + (oracle k).decodedLength.toNat,
          size := p.size - (oracle k).decodedLength.toNat } :: rest) ∧
    ((oracle k).gotPicture = false →
      ((onGetData info oracle k st (p :: rest)).events.drop 2).head? =
        some (PacketEvent.pop
          { pid := p.pid, data := p.data + (oracle k).decodedLength.toNat,
            size := p.size - (oracle k).decodedLength.toNat })) := by
  obtain ⟨hm, hpkt⟩ := decodePacket_partial info st p (oracle k) hpos hlt
  refine ⟨hm, hpkt, ?_⟩
  by_cases hpic : (oracle k).gotPicture = true
  · have hx : (decodePacket info st p (oracle k)).gotFrame = true ∨
        (decodePacket info st p (oracle k)).goOn = false :=
      Or.inl ((decodePacket_gotFrame info st p (oracle k)).trans hpic)
    have hrw := runLoop_step_requeue_exit info oracle k st p rest hm hx
    refine ⟨?_, fun _ => ?_, fun hc => ?_⟩
    · show (runLoop info oracle k st p rest).events.take 2 = _
      rw [hrw, hpkt]
      rfl
    · show (runLoop info oracle k st p rest).queue = _
      rw [hrw, hpkt]
    · rw [hpic] at hc
      cases hc
  · have hgf : (decodePacket info st p (oracle k)).gotFrame = false := by
      rw [decodePacket_gotFrame]
      exact Bool.not_eq_true _ ▸ hpic
    have hgo : (decodePacket info st p (oracle k)).goOn = true := by
      rw [decodePacket_goOn]
      simpa using hpos
    have hx : ¬((decodePacket info st p (oracle k)).gotFrame = true ∨
        (decodePacket info st p (oracle k)).goOn = false) := by
      rw [hgf, hgo]
      simp
    have hrw := runLoop_step_requeue_next info oracle k st p rest hm hx
    refine ⟨?_, fun hc => ?_, fun _ => ?_⟩
    · show (runLoop info oracle k st p rest).events.take 2 = _
      rw [hrw, hpkt]
      rfl
    · exact absurd hc hpic
    · show ((runLoop info oracle k st p rest).events.drop 2).head? = _
      rw [hrw]
      show (runLoop info oracle (k + 1) (decodePacket info st p (oracle k)).state
        (decodePacket info st p (oracle k)).packet rest).events.head? = _
      rw [runLoop_events_head, hpkt]

/-- Claim C3: a transition into Playing from Paused performs no action, and
preload is invoked only on the transition into Playing from Stopped. -/
theorem claim_C3_paused_play_no_action (info : StreamInfo)
    (oracle : Nat → DecodeOutcome) (c : CodecState) (k : Nat)
    (st : StreamState) (queue : List Packet) :
    lifecycleTransition info oracle TimerStatus.Paused TimerStatus.Playing c k st queue =
      { codec := c, state := st, queue := queue, events := [],
        nextCall := k, presented := false } ∧
    lifecycleTransition info oracle TimerStatus.Stopped TimerStatus.Playing c k st queue =
      { codec := c,
        state := (preload info oracle k st queue).state,
        queue := (preload info oracle k st queue).queue,
        events := (preload info oracle k st queue).events,
        nextCall := (preload info oracle k st queue).nextCall,
        presented := (preload info oracle k st queue).presented } ∧
    (∀ prev next : TimerStatus,
      (prev = TimerStatus.Stopped ∧ next = TimerStatus.Playing) ∨
      (lifecycleTransition info oracle prev next c k st queue).events = []) := by
  refine ⟨rfl, rfl, ?_⟩
  intro prev next
  cases prev <;> cases next <;> simp [lifecycleTransition]

/-- Claim C4: `updateTexture` attempts to produce and present a new frame
exactly when the synchronization gap is strictly negative (in particular a
zero gap triggers no decode attempt), while `preload` unconditionally
attempts one. -/
theorem claim_C4_synchronization_gating (info : StreamInfo)
    (oracle : Nat → DecodeOutcome) (k : Nat) (off : ℚ) (st : StreamState)
    (queue : List Packet) :
    (getSynchronizationGap st off < 0 →
      updateTexture info oracle k off st queue = onGetData info oracle k st queue) ∧
    (0 ≤ getSynchronizationGap st off →
      updateTexture info oracle k off st queue = noActionResult st queue k) ∧
    preload info oracle k st queue = onGetData info oracle k st queue := by
  refine ⟨fun h => ?_, fun h => ?_, rfl⟩
  · simp [updateTexture, h]
  · simp [updateTexture, not_lt.mpr h]

theorem claim_C4_witness :
    0 ≤ getSynchronizationGap ⟨0⟩ 0 ∧
    updateTexture ⟨true, 0, 1⟩ (fun _ => ⟨1, true, 0⟩) 0 0 ⟨0⟩ [] =
      noActionResult ⟨0⟩ [] 0 :=
  ⟨by simp [getSynchronizationGap],
   (claim_C4_synchronization_gating ⟨true, 0, 1⟩ (fun _ => ⟨1, true, 0⟩)
      0 0 ⟨0⟩ []).2.1 (by simp [getSynchronizationGap])⟩

/-- Claim C5: when the decode primitive reports a failed result on a packet
(and per the codec contract reports no picture with it), the `onGetData`
attempt terminates with no frame produced, the triggering packet is freed
(not requeued), and the call returns `false`. -/
theorem claim_C5_decode_failure_frees (info : StreamInfo)
    (oracle : Nat → DecodeOutcome) (k : Nat) (st : StreamState)
    (p : Packet) (rest : List Packet)
    (hfail : (oracle k).decodedLength ≤ 0)
    (hnopic : (oracle k).gotPicture = false) :
    onGetData info oracle k st (p :: rest) =
      { goOn := false, presented := false, state := st, queue := rest,
        events := [PacketEvent.pop p, PacketEvent.free p],
        nextCall := k + 1 } := by
  have hd := decodePacket_failure info st p (oracle k) hfail
  have hm : (decodePacket info st p (oracle k)).needsMoreDecoding = false := by
    rw [hd]
  have hx : (decodePacket info st p (oracle k)).gotFrame = true ∨
      (decodePacket info st p (oracle k)).goOn = false := by
    right
    rw [hd]
  show runLoop info oracle k st p rest = _
  rw [runLoop_step_free_exit info oracle k st p rest hm hx, hd]
  simp [hnopic]

theorem claim_C5_witness :
    onGetData ⟨true, 0, 1⟩ (fun _ => ⟨-1, false, 0⟩) 4 ⟨6⟩ [⟨2, 0, 8⟩, ⟨3, 0, 5⟩] =
      { goOn := false, presented := false, state := ⟨6⟩, queue := [⟨3, 0, 5⟩],
        events := [PacketEvent.pop ⟨2, 0, 8⟩, PacketEvent.free ⟨2, 0, 8⟩],
        nextCall := 5 } :=
  claim_C5_decode_failure_frees ⟨true, 0, 1⟩ (fun _ => ⟨-1, false, 0⟩) 4 ⟨6⟩
    ⟨2, 0, 8⟩ [⟨3, 0, 5⟩] (by decide) rfl

/-- Claim C6: for every successfully decoded picture, the stored
`lastDecodedTimestamp` equals `1000 * (bestEffortTimestamp - startTime) *
timeBase` milliseconds, with `startTime` taken as zero when the stream's
start time is the unknown sentinel. -/
theorem claim_C6_timestamp_derivation (info : StreamInfo) (st : StreamState)
    (p : Packet) (o : DecodeOutcome)
    (hpos : 0 < o.decodedLength) (hpic : o.gotPicture = true) :
    (decodePacket info st p o).state.lastDecodedTimestamp =
      1000 * ((o.bestEffortTimestamp : ℚ) -
        (if info.startTimeKnown = true then (info.startTime : ℚ) else 0)) *
        info.timeBase := by
  simp only [decodePacket, if_pos hpos, hpic, if_true]
  by_cases hk : info.startTimeKnown = true <;> simp [hk]

theorem claim_C6_witness :
    (decodePacket ⟨true, 10, (1 : ℚ)/2⟩ ⟨0⟩ ⟨1, 0, 4⟩ ⟨4, true, 30⟩).state.lastDecodedTimestamp =
      1000 * (((30 : Int) : ℚ) - (if true = true then ((10 : Int) : ℚ) else 0)) * ((1 : ℚ)/2) :=
  claim_C6_timestamp_derivation ⟨true, 10, (1 : ℚ)/2⟩ ⟨0⟩ ⟨1, 0, 4⟩ ⟨4, true, 30⟩
    (by decide) rfl

/-- Claim C7: on every transition into Stopped the did-stop hook invokes
the codec flush operation, which discards all internal buffered decoder
state, so nothing decoded after a replay can come from pre-stop data. -/
theorem claim_C7_stop_flushes_codec (info : StreamInfo)
    (oracle : Nat → DecodeOutcome) (prev : TimerStatus) (c : CodecState)
    (k : Nat) (st : StreamState) (queue : List Packet) :
    (lifecycleTransition info oracle prev TimerStatus.Stopped c k st queue).codec =
      avcodecFlushBuffers c ∧
    didStop c = avcodecFlushBuffers c ∧
    (avcodecFlushBuffers c).buffered = [] := by
  refine ⟨?_, rfl, rfl⟩
  cases prev <;> rfl

/-- Claim C8: `lastDecodedTimestamp` is mutated only when a picture is
successfully decoded: any `onGetData` call whose iterations present no
frame leaves it unchanged. -/
theorem claim_C8_timestamp_only_on_picture (info : StreamInfo)
    (oracle : Nat → DecodeOutcome) (k : Nat) (st : StreamState)
    (queue : List Packet)
    (h : (onGetData info oracle k st queue).presented = false) :
    (onGetData info oracle k st queue).state = st := by
  cases queue with
  | nil => rfl
  | cons p rest => exact runLoop_noPresent_state info oracle k st p rest h

theorem claim_C8_witness :
    (preload ⟨true, 0, 1⟩ (fun _ => ⟨1, true, 0⟩) 0 ⟨7⟩ []).presented = false ∧
    (preload ⟨true, 0, 1⟩ (fun _ => ⟨1, true, 0⟩) 0 ⟨7⟩ []).state = ⟨7⟩ :=
  ⟨rfl, claim_C8_timestamp_only_on_picture ⟨true, 0, 1⟩ (fun _ => ⟨1, true, 0⟩) 0 ⟨7⟩ [] rfl⟩

/-- Claim C9: `onGetData` returns `false` exactly when its final
`decodePacket` invocation reported failure; on an empty packet source it
returns `true` with no frame produced, so the return value cannot
distinguish "no data" from "frame produced". -/
theorem claim_C9_return_value (info : StreamInfo)
    (oracle : Nat → DecodeOutcome) (k : Nat) (st : StreamState)
    (queue : List Packet) :
    ((onGetData info oracle k st queue).goOn = false ↔
      k < (onGetData info oracle k st queue).nextCall ∧
      (oracle ((onGetData info oracle k st queue).nextCall - 1)).decodedLength ≤ 0) ∧
    (queue = [] →
      onGetData info oracle k st queue =
        { goOn := true, presented := false, state := st, queue := [],
          events := [], nextCall := k }) := by
  cases queue with
  | nil =>
    refine ⟨?_, fun _ => rfl⟩
    simp [onGetData]
  | cons p rest =>
    refine ⟨?_, fun h => absurd h (List.cons_ne_nil p rest)⟩
    have h1 := runLoop_goOn_iff info oracle k st p rest
    have h2 := runLoop_nextCall_lt info oracle k st p rest
    show (runLoop info oracle k st p rest).goOn = false ↔ _
    rw [h1]
    exact ⟨fun h => ⟨h2, h⟩, fun h => h.2⟩

theorem claim_C9_witness :
    onGetData ⟨true, 0, 1⟩ (fun _ => ⟨1, true, 0⟩) 5 ⟨3⟩ [] =
      { goOn := true, presented := false, state := ⟨3⟩, queue := [],
        events := [], nextCall := 5 } :=
  (claim_C9_return_value ⟨true, 0, 1⟩ (fun _ => ⟨1, true, 0⟩) 5 ⟨3⟩ []).2 rfl

/-- Claim C10: when the decode primitive reports a non-positive consumed
length, `decodePacket` leaves the packet cursor, `needsMoreDecoding` and
`lastDecodedTimestamp` unchanged and returns `false`. -/
theorem claim_C10_failure_no_mutation (info : StreamInfo) (st : StreamState)
    (p : Packet) (o : DecodeOutcome) (h : o.decodedLength ≤ 0) :
    decodePacket info st p o =
      { goOn := false, gotFrame := o.gotPicture, needsMoreDecoding := false,
        packet := p, state := st } :=
  decodePacket_failure info st p o h

theorem claim_C10_witness :
    decodePacket ⟨true, 2, 1⟩ ⟨9⟩ ⟨3, 10, 6⟩ ⟨-4, false, 11⟩ =
      { goOn := false, gotFrame := false, needsMoreDecoding := false,
        packet := ⟨3, 10, 6⟩, state := ⟨9⟩ } :=
  claim_C10_failure_no_mutation ⟨true, 2, 1⟩ ⟨9⟩ ⟨3, 10, 6⟩ ⟨-4, false, 11⟩ (by decide)

theorem claim_C2_witness :
    (0 : Int) < 2 ∧ ((2 : Int) < ((5 : Nat) : Int)) ∧
    ((decodePacket ⟨true, 0, 1⟩ ⟨0⟩ ⟨7, 100, 5⟩ ⟨2, true, 5⟩).needsMoreDecoding = true ∧
     (decodePacket ⟨true, 0, 1⟩ ⟨0⟩ ⟨7, 100, 5⟩ ⟨2, true, 5⟩).packet = ⟨7, 102, 3⟩ ∧
     (onGetData ⟨true, 0, 1⟩ (fun _ => ⟨2, true, 5⟩) 0 ⟨0⟩ [⟨7, 100, 5⟩]).events.take 2 =
       [PacketEvent.pop ⟨7, 100, 5⟩, PacketEvent.requeue ⟨7, 102, 3⟩] ∧
     ((true : Bool) = true →
       (onGetData ⟨true, 0, 1⟩ (fun _ => ⟨2, true, 5⟩) 0 ⟨0⟩ [⟨7, 100, 5⟩]).queue =
         [⟨7, 102, 3⟩]) ∧
     ((true : Bool) = false →
       ((onGetData ⟨true, 0, 1⟩ (fun _ => ⟨2, true, 5⟩) 0 ⟨0⟩ [⟨7, 100, 5⟩]).events.drop 2).head? =
         some (PacketEvent.pop ⟨7, 102, 3⟩))) :=
  ⟨by decide, by decide,
   claim_C2_partial_consume_requeue ⟨true, 0, 1⟩ (fun _ => ⟨2, true, 5⟩) 0 ⟨0⟩
     ⟨7, 100, 5⟩ [] (by decide) (by decide)⟩
